import Mathlib

/-!
Shallow embedding of `src/fetch_news.py`: a batch script that fetches health
news headlines from a third-party API, truncates the article list to five
entries, attaches a static Arabic health tip, and falls back to hardcoded
static content when the API key is missing, the upstream status is not "ok",
or the request or parse raises.
-/

namespace FetchNews

/-- JSON values, as produced by Python json parsing of the upstream response
body and as held in the dict literals the script builds. -/
inductive Json where
  | null : Json
  | bool (b : Bool) : Json
  | num (n : Int) : Json
  | str (s : String) : Json
  | arr (items : List Json) : Json
  | obj (fields : List (String × Json)) : Json

/-- Ordered lookup of a key in the field list of a JSON object, the embedding
of Python dict access by key. -/
def lookupField : List (String × Json) → String → Option Json
  | [], _ => none
  | (k, v) :: rest, key => if k = key then some v else lookupField rest key

/-- Embedding of Python `data.get("status")`: the status field of a JSON
object, `none` when the field is missing.  On a value that is not an object
the script raises instead (AttributeError) and ends in the same fallback, so
for non-objects this helper also returns `none`. -/
def statusField : Json → Option Json
  | Json.obj fields => lookupField fields "status"
  | _ => none

/-- Embedding of the Python comparison `data.get("status") == "ok"` on the
optional value returned by the lookup: true exactly when the value is the
string literal "ok". -/
def isOkStr : Option Json → Bool
  | some (Json.str s) => decide (s = "ok")
  | _ => false

/-- Embedding of the Python slice `value[:5]` on a JSON value: lists and
strings are sliceable; every other value raises TypeError, modelled as
`none` (the exception is swallowed by the blanket handler). -/
def pySlice5 : Json → Option Json
  | Json.arr xs => some (Json.arr (xs.take 5))
  | Json.str s => some (Json.str (String.mk (s.data.take 5)))
  | _ => none

/-- Length of a sliceable JSON value (array or string); zero for the other
kinds, which the script never stores in the articles field. -/
def Json.seqLen : Json → Nat
  | Json.arr xs => xs.length
  | Json.str s => s.data.length
  | _ => 0

/-- Indexing into a JSON array, the embedding of Python list indexing. -/
def Json.index : Json → Nat → Option Json
  | Json.arr xs, i => xs.get? i
  | _, _ => none

/-- Field access on a JSON object, `none` for other values. -/
def Json.field : Json → String → Option Json
  | Json.obj fields, k => lookupField fields k
  | _, _ => none

/-- Tip string attached on the live success path (fetch_news.py line 26):
an Arabic sentence about walking 30 minutes a day reducing heart-disease
risk. -/
def successTip : String :=
  "نصيحة اليوم: المشي لمدة 30 دقيقة يومياً يقلل من خطر الإصابة بأمراض القلب."

/-- Tip string of the fallback bundle (fetch_news.py line 40): an Arabic
sentence about regular water intake improving focus and energy. -/
def fallbackTip : String :=
  "نصيحة اليوم: شرب الماء بانتظام يساعد على تحسين التركيز والطاقة."

/-- The dict the script returns on both paths: a timestamp string, a tip
string and an articles value (a JSON list on every path the upstream
documents). -/
structure NewsBundle where
  updated_at : String
  tip : String
  articles : Json

/-- The hardcoded two-element articles list of `generate_fallback_data`
(fetch_news.py lines 41 through 54), transcribed literally. -/
def fallbackArticles : Json :=
  Json.arr
    [ Json.obj
        [ ("title", Json.str "فوائد الصيام المتقطع للصحة العقلية"),
          ("description",
            Json.str "دراسات جديدة تؤكد دور الصيام في تحسين الوظائف الإدراكية."),
          ("url", Json.str "#"),
          ("urlToImage", Json.str "https://via.placeholder.com/300?text=Health") ],
      Json.obj
        [ ("title", Json.str "أهمية النوم الجيد للمناعة"),
          ("description",
            Json.str "النوم لمدة 7-8 ساعات يعزز جهاز المناعة بشكل كبير."),
          ("url", Json.str "#"),
          ("urlToImage", Json.str "https://via.placeholder.com/300?text=Sleep") ] ]

/-- Embedding of `generate_fallback_data` (fetch_news.py lines 37 through 55).
The wall clock read by `datetime.now().isoformat()` is passed in as `now`. -/
def generate_fallback_data (now : String) : NewsBundle :=
  { updated_at := now, tip := fallbackTip, articles := fallbackArticles }

/-- The request URL built on line 17 of fetch_news.py. -/
def requestUrl (key : String) : String :=
  "https://newsapi.org/v2/top-headlines?category=health&language=ar&apiKey=" ++ key

/-- Outcome of the try block of `fetch_health_news` (lines 19 through 35):
either a live bundle was built, or the parsed status was not "ok" (the
script logs and falls back), or some step raised (the blanket handler
catches and falls back). -/
inductive TryOutcome where
  | live (b : NewsBundle) : TryOutcome
  | apiError : TryOutcome
  | raised : TryOutcome

/-- Embedding of the body of the try block given the parsed response `data`:
a non-object raises on `.get` (AttributeError); an object with status "ok"
slices the articles value (default empty list), raising TypeError when the
value is not sliceable; any other status is the logged API-error path. -/
def tryEval (now : String) (data : Json) : TryOutcome :=
  match data with
  | Json.obj fields =>
    if isOkStr (lookupField fields "status") then
      match pySlice5 ((lookupField fields "articles").getD (Json.arr [])) with
      | some sliced =>
        TryOutcome.live { updated_at := now, tip := successTip, articles := sliced }
      | none => TryOutcome.raised
    else TryOutcome.apiError
  | _ => TryOutcome.raised

/-- Behaviour of the one upstream HTTP call together with `response.json()`:
either the pair raises somewhere, or it yields a parsed JSON value. -/
inductive Upstream where
  | raises : Upstream
  | returns (data : Json) : Upstream

/-- Embedding of the Python truthiness test `if not API_KEY` on the value of
`os.environ.get("NEWS_API_KEY")`: true for an absent variable and for the
empty string. -/
def keyFalsy : Option String → Bool
  | none => true
  | some s => decide (s = "")

/-- Result of one run of `fetch_health_news`: the bundle it returns, plus
whether the HTTP GET of line 20 was actually issued. -/
structure FetchResult where
  bundle : NewsBundle
  requested : Bool

/-- Embedding of `fetch_health_news` (fetch_news.py lines 12 through 35).
`apiKey` is the environment value of NEWS_API_KEY, `upstream` the behaviour
of the network call, `now` the wall clock reading. -/
def fetch_health_news (apiKey : Option String) (upstream : Upstream)
    (now : String) : FetchResult :=
  if keyFalsy apiKey then
    { bundle := generate_fallback_data now, requested := false }
  else
    match upstream with
    | Upstream.raises => { bundle := generate_fallback_data now, requested := true }
    | Upstream.returns data =>
      match tryEval now data with
      | TryOutcome.live b => { bundle := b, requested := true }
      | TryOutcome.apiError => { bundle := generate_fallback_data now, requested := true }
      | TryOutcome.raised => { bundle := generate_fallback_data now, requested := true }

/-- Serialization performed by `json.dump(news_data, ...)` in the main block
(fetch_news.py lines 57 through 66), at the level of JSON values: the dict
the script built, with its three keys in insertion order. -/
def bundleToJson (b : NewsBundle) : Json :=
  Json.obj
    [ ("updated_at", Json.str b.updated_at),
      ("tip", Json.str b.tip),
      ("articles", b.articles) ]

/-- Deserialization of the written file back into the bundle shape: read the
three fields of the object by key, requiring the two string fields to be
strings. -/
def jsonToBundle (j : Json) : Option NewsBundle :=
  match j with
  | Json.obj fields =>
    match lookupField fields "updated_at", lookupField fields "tip",
        lookupField fields "articles" with
    | some (Json.str u), some (Json.str t), some a =>
      some { updated_at := u, tip := t, articles := a }
    | _, _, _ => none
  | _ => none

/-- A non-empty key is not falsy. -/
theorem keyFalsy_some_false (key : String) (hk : key ≠ "") :
    keyFalsy (some key) = false := by
  simp [keyFalsy, hk]

/-- Whatever a successful slice produces has length at most five. -/
theorem seqLen_of_pySlice5 {v sliced : Json} (h : pySlice5 v = some sliced) :
    Json.seqLen sliced ≤ 5 := by
  cases v with
  | arr xs =>
    simp only [pySlice5, Option.some.injEq] at h
    subst h
    simp only [Json.seqLen, List.length_take]
    exact min_le_left _ _
  | str s =>
    simp only [pySlice5, Option.some.injEq] at h
    subst h
    simp only [Json.seqLen, List.length_take]
    exact min_le_left _ _
  | null => simp [pySlice5] at h
  | bool b => simp [pySlice5] at h
  | num n => simp [pySlice5] at h
  | obj fields => simp [pySlice5] at h

/-- Any live bundle the try block builds has a sliced articles value. -/
theorem tryEval_live_seqLen {now : String} {data : Json} {b : NewsBundle}
    (h : tryEval now data = TryOutcome.live b) : Json.seqLen b.articles ≤ 5 := by
  cases data with
  | obj fields =>
    by_cases hok : isOkStr (lookupField fields "status") = true
    · simp only [tryEval, hok, if_true] at h
      cases hps : pySlice5 ((lookupField fields "articles").getD (Json.arr [])) with
      | some sliced =>
        rw [hps] at h
        simp only [TryOutcome.live.injEq] at h
        subst h
        exact seqLen_of_pySlice5 hps
      | none =>
        rw [hps] at h
        exact TryOutcome.noConfusion h
    · simp only [tryEval, hok, if_false, Bool.not_eq_true] at h
      simp [Bool.eq_false_iff.mpr hok] at h
  | null => simp [tryEval] at h
  | bool c => simp [tryEval] at h
  | num n => simp [tryEval] at h
  | str s => simp [tryEval] at h
  | arr xs => simp [tryEval] at h

/-- C1 (corrected). As stated the claim is false: on the success path the
script does NOT use the water-intake string.  At an explicit status-"ok"
response, the returned tip differs from the fixed Arabic water-intake string
(which is the fallback tip of line 40). -/
theorem C1_counterexample :
    ¬ ((fetch_health_news (some "k")
        (Upstream.returns (Json.obj
          [("status", Json.str "ok"), ("articles", Json.arr [])])) "t").bundle.tip
      = fallbackTip) := by
  decide

/-- C1 (amended): for every upstream response whose parsed JSON is an object
with status equal to "ok" (and whose articles value, defaulting to the empty
list, is sliceable), `fetch_health_news` returns a bundle whose tip is the
fixed Arabic string about walking 30 minutes daily — which is not the
water-intake string. -/
theorem C1_success_tip_walking (key : String) (fields : List (String × Json))
    (now : String) (sliced : Json)
    (hk : key ≠ "")
    (hok : isOkStr (lookupField fields "status") = true)
    (hs : pySlice5 ((lookupField fields "articles").getD (Json.arr []))
      = some sliced) :
    (fetch_health_news (some key) (Upstream.returns (Json.obj fields)) now).bundle.tip
      = successTip ∧ successTip ≠ fallbackTip := by
  constructor
  · simp [fetch_health_news, keyFalsy_some_false key hk, tryEval, hok, hs]
  · decide

/-- Witness for C1: concrete application at a status-"ok" response. -/
theorem C1_witness :
    ("k" : String) ≠ ""
    ∧ isOkStr (lookupField [("status", Json.str "ok")] "status") = true
    ∧ pySlice5 ((lookupField [("status", Json.str "ok")] "articles").getD (Json.arr []))
        = some (Json.arr [])
    ∧ ((fetch_health_news (some "k")
          (Upstream.returns (Json.obj [("status", Json.str "ok")])) "t").bundle.tip
        = successTip ∧ successTip ≠ fallbackTip) :=
  ⟨by decide, by rfl, by rfl,
    C1_success_tip_walking "k" [("status", Json.str "ok")] "t" (Json.arr [])
      (by decide) (by rfl) (by rfl)⟩

/-- C2 (confirmed): for every upstream response whose parsed JSON is an
object with status "ok" and an articles array `xs`, the returned bundle's
articles value is exactly the first five elements of `xs` in order, of
length `min 5 (length xs)`. -/
theorem C2_articles_take_five (key : String) (fields : List (String × Json))
    (xs : List Json) (now : String)
    (hk : key ≠ "")
    (hok : isOkStr (lookupField fields "status") = true)
    (ha : lookupField fields "articles" = some (Json.arr xs)) :
    (fetch_health_news (some key) (Upstream.returns (Json.obj fields)) now).bundle.articles
      = Json.arr (xs.take 5)
    ∧ (xs.take 5).length = min 5 xs.length := by
  constructor
  · simp [fetch_health_news, keyFalsy_some_false key hk, tryEval, hok, ha, pySlice5]
  · simp [List.length_take]

/-- Witness for C2: a mocked seven-article "ok" response keeps exactly the
first five articles in order. -/
theorem C2_witness :
    ("k" : String) ≠ ""
    ∧ isOkStr (lookupField
        [("status", Json.str "ok"),
         ("articles", Json.arr [Json.num 1, Json.num 2, Json.num 3, Json.num 4,
            Json.num 5, Json.num 6, Json.num 7])] "status") = true
    ∧ lookupField
        [("status", Json.str "ok"),
         ("articles", Json.arr [Json.num 1, Json.num 2, Json.num 3, Json.num 4,
            Json.num 5, Json.num 6, Json.num 7])] "articles"
      = some (Json.arr [Json.num 1, Json.num 2, Json.num 3, Json.num 4,
          Json.num 5, Json.num 6, Json.num 7])
    ∧ ((fetch_health_news (some "k")
          (Upstream.returns (Json.obj
            [("status", Json.str "ok"),
             ("articles", Json.arr [Json.num 1, Json.num 2, Json.num 3, Json.num 4,
                Json.num 5, Json.num 6, Json.num 7])])) "t").bundle.articles
        = Json.arr ([Json.num 1, Json.num 2, Json.num 3, Json.num 4,
            Json.num 5, Json.num 6, Json.num 7].take 5)
      ∧ ([Json.num 1, Json.num 2, Json.num 3, Json.num 4,
            Json.num 5, Json.num 6, Json.num 7].take (5 : Nat)).length
        = min 5 [Json.num 1, Json.num 2, Json.num 3, Json.num 4,
            Json.num 5, Json.num 6, Json.num 7].length) :=
  ⟨by decide, by rfl, by rfl,
    C2_articles_take_five "k"
      [("status", Json.str "ok"),
       ("articles", Json.arr [Json.num 1, Json.num 2, Json.num 3, Json.num 4,
          Json.num 5, Json.num 6, Json.num 7])]
      [Json.num 1, Json.num 2, Json.num 3, Json.num 4,
       Json.num 5, Json.num 6, Json.num 7] "t"
      (by decide) (by rfl) (by rfl)⟩

/-- C3 (confirmed): for every parsed upstream JSON whose status field is not
the literal string "ok" — missing fields and non-object values included —
`fetch_health_news` returns the fallback bundle built by
`generate_fallback_data`. -/
theorem C3_non_ok_status_fallback (key : String) (data : Json) (now : String)
    (hk : key ≠ "")
    (hnok : isOkStr (statusField data) = false) :
    fetch_health_news (some key) (Upstream.returns data) now
      = { bundle := generate_fallback_data now, requested := true } := by
  have hkf := keyFalsy_some_false key hk
  cases data with
  | obj fields =>
    simp only [statusField] at hnok
    simp [fetch_health_news, hkf, tryEval, hnok]
  | null => simp [fetch_health_news, hkf, tryEval]
  | bool c => simp [fetch_health_news, hkf, tryEval]
  | num n => simp [fetch_health_news, hkf, tryEval]
  | str s => simp [fetch_health_news, hkf, tryEval]
  | arr xs => simp [fetch_health_news, hkf, tryEval]

/-- Witness for C3: a concrete response whose status is "error". -/
theorem C3_witness :
    ("k" : String) ≠ ""
    ∧ isOkStr (statusField (Json.obj [("status", Json.str "error")])) = false
    ∧ fetch_health_news (some "k")
        (Upstream.returns (Json.obj [("status", Json.str "error")])) "t"
      = { bundle := generate_fallback_data "t", requested := true } :=
  ⟨by decide, by rfl,
    C3_non_ok_status_fallback "k" (Json.obj [("status", Json.str "error")]) "t"
      (by decide) (by rfl)⟩

/-- C4 (confirmed): when the HTTP request or the JSON parse of its response
raises, `fetch_health_news` returns the fallback bundle; in the embedding
the function is total, so the exception never propagates out. -/
theorem C4_exception_fallback (key : String) (now : String) (hk : key ≠ "") :
    fetch_health_news (some key) Upstream.raises now
      = { bundle := generate_fallback_data now, requested := true } := by
  simp [fetch_health_news, keyFalsy_some_false key hk]

/-- Witness for C4: concrete raising run. -/
theorem C4_witness :
    ("k" : String) ≠ ""
    ∧ fetch_health_news (some "k") Upstream.raises "t"
        = { bundle := generate_fallback_data "t", requested := true } :=
  ⟨by decide, C4_exception_fallback "k" "t" (by decide)⟩

/-- C5 (confirmed): with NEWS_API_KEY absent, `fetch_health_news` returns
the fallback bundle and never issues the HTTP request — the result is the
same for every possible upstream behaviour and the requested flag is false. -/
theorem C5_absent_key_fallback (upstream : Upstream) (now : String) :
    fetch_health_news none upstream now
      = { bundle := generate_fallback_data now, requested := false } := rfl

/-- C6 (confirmed): the fallback bundle always has the water-intake tip and
exactly two fully populated articles: url "#" on both, the placeholder image
URLs, and the intermittent-fasting title first. -/
theorem C6_fallback_content (now : String) :
    (generate_fallback_data now).tip = fallbackTip
    ∧ Json.seqLen (generate_fallback_data now).articles = 2
    ∧ ((generate_fallback_data now).articles.index 0).bind (fun a => a.field "title")
        = some (Json.str "فوائد الصيام المتقطع للصحة العقلية")
    ∧ ((generate_fallback_data now).articles.index 0).bind (fun a => a.field "url")
        = some (Json.str "#")
    ∧ ((generate_fallback_data now).articles.index 1).bind (fun a => a.field "url")
        = some (Json.str "#")
    ∧ ((generate_fallback_data now).articles.index 0).bind (fun a => a.field "urlToImage")
        = some (Json.str "https://via.placeholder.com/300?text=Health")
    ∧ ((generate_fallback_data now).articles.index 1).bind (fun a => a.field "urlToImage")
        = some (Json.str "https://via.placeholder.com/300?text=Sleep")
    ∧ (((generate_fallback_data now).articles.index 0).bind
        (fun a => a.field "description")).isSome = true
    ∧ (((generate_fallback_data now).articles.index 1).bind
        (fun a => a.field "description")).isSome = true
    ∧ (((generate_fallback_data now).articles.index 1).bind
        (fun a => a.field "title")).isSome = true :=
  ⟨rfl, rfl, rfl, rfl, rfl, rfl, rfl, rfl, rfl, rfl⟩

/-- C7 (confirmed): every bundle `fetch_health_news` can produce — live or
fallback, for any key, upstream behaviour and clock — has an articles value
of length at most five. -/
theorem C7_articles_at_most_five (apiKey : Option String) (upstream : Upstream)
    (now : String) :
    Json.seqLen (fetch_health_news apiKey upstream now).bundle.articles ≤ 5 := by
  have hfb : Json.seqLen fallbackArticles ≤ 5 := by decide
  unfold fetch_health_news
  split
  · exact hfb
  · cases upstream with
    | raises => exact hfb
    | returns data =>
      cases hlive : tryEval now data with
      | live b =>
        simp only [hlive]
        exact tryEval_live_seqLen hlive
      | apiError =>
        simp only [hlive]
        exact hfb
      | raised =>
        simp only [hlive]
        exact hfb

/-- C8 (confirmed): any two runs with the key unset agree on every field
except possibly updated_at, and each equals the fallback literal modulo
updated_at, with exactly two articles. -/
theorem C8_no_key_runs_agree (u1 u2 : Upstream) (now1 now2 : String) :
    (fetch_health_news none u1 now1).bundle.tip
      = (fetch_health_news none u2 now2).bundle.tip
    ∧ (fetch_health_news none u1 now1).bundle.articles
      = (fetch_health_news none u2 now2).bundle.articles
    ∧ (fetch_health_news none u1 now1).bundle.tip = fallbackTip
    ∧ (fetch_health_news none u1 now1).bundle.articles = fallbackArticles
    ∧ Json.seqLen (fetch_health_news none u1 now1).bundle.articles = 2 :=
  ⟨rfl, rfl, rfl, rfl, rfl⟩

/-- Serialization followed by deserialization is the identity on bundles. -/
theorem bundle_roundtrip (b : NewsBundle) : jsonToBundle (bundleToJson b) = some b := rfl

/-- C9 (confirmed): for every run, the JSON document written for the bundle,
when read back field by field, yields exactly the in-memory bundle that was
serialized. -/
theorem C9_serialize_roundtrip (apiKey : Option String) (upstream : Upstream)
    (now : String) :
    jsonToBundle (bundleToJson (fetch_health_news apiKey upstream now).bundle)
      = some (fetch_health_news apiKey upstream now).bundle :=
  bundle_roundtrip _

/-- C10 (confirmed): an empty-string key behaves exactly like an absent key —
the truthiness test treats both as falsy, so the run returns the fallback
bundle without consulting the upstream at all. -/
theorem C10_empty_key_like_absent (u1 u2 : Upstream) (now : String) :
    fetch_health_news (some "") u1 now = fetch_health_news none u2 now
    ∧ fetch_health_news (some "") u1 now
      = { bundle := generate_fallback_data now, requested := false } :=
  ⟨rfl, rfl⟩

end FetchNews
